import Mathlib

/-!
Shallow embedding of the `server` package of this repository
(`Godeps/_workspace/src/github.com/micro/go-micro/server`), covering
`rpc_stream.go` (the per-connection stream over a codec) and `server.go`
(the package-level default server and its convenience functions), together
with theorems checking the specification's claims about them.

Modelling conventions:
- Go `error` values are `Option GoError` (`none` = nil error), with
  `GoError` a plain string (the error message).
- Go `interface{}` message payloads are abstract values (`Msg := Nat`).
- The codec (`serverCodec`, an external collaborator) is modelled as a
  deterministic state machine: a script of results for each primitive,
  consumed call by call, plus a log of the calls made, so that "writes an
  envelope" and "invokes the body-discard path exactly once" are
  observable facts about the log.
- Mutation is explicit state passing: a method on `*rpcStream` becomes a
  function returning the result together with the updated stream and
  codec states.  The `sync.RWMutex` only serializes the methods; the
  embedding is sequential, so the lock itself is not modelled.
-/

/-- Go `error` values, identified by their message ("EOF", "broken pipe", ...). -/
abbrev GoError := String

/-- Abstract message payload standing for Go `interface{}` bodies. -/
abbrev Msg := Nat

/-- Abstract `context.Context` value carried by a stream. -/
abbrev GoContext := Nat

/-- The `Request` interface of server.go (`Service`, `Method`, `ContentType`,
`Stream`), modelled as the immutable tuple of its observations.  The raw
payload accessor `Request() interface{}` is not needed by any claim and is
omitted. -/
structure Request where
  Service : String
  Method : String
  ContentType : String
  Stream : Bool
deriving DecidableEq

/-- The `response` envelope written by `rpcStream.Send`: the struct literal in
rpc_stream.go sets exactly the fields `ServiceMethod` and `Seq`. -/
structure response where
  ServiceMethod : String
  Seq : Nat
deriving DecidableEq

/-- One call made on the codec, as recorded in the codec log.  Out-parameters
(the header struct, the body target) are recorded only by what the caller
passed: for `readRequestBody`, `none` is Go's nil target (the discard path)
and `some m` a real target. -/
inductive CodecCall where
  | readRequestHeader (first : Bool)
  | readRequestBody (target : Option Msg)
  | writeResponse (resp : response) (body : Msg) (more : Bool)
  | close
deriving DecidableEq

/-- State of the external `serverCodec` collaborator: scripted results for
each primitive (head of the list is the next call's result; an exhausted
script answers nil) and the log of calls made so far. -/
structure CodecState where
  headerRes : List (Option GoError)
  bodyRes : List (Option GoError)
  writeRes : List (Option GoError)
  closeRes : List (Option GoError)
  log : List CodecCall
deriving DecidableEq

def CodecState.readRequestHeader (c : CodecState) (first : Bool) :
    Option GoError × CodecState :=
  (c.headerRes.headD none,
   { c with headerRes := c.headerRes.tail,
            log := c.log ++ [CodecCall.readRequestHeader first] })

def CodecState.readRequestBody (c : CodecState) (target : Option Msg) :
    Option GoError × CodecState :=
  (c.bodyRes.headD none,
   { c with bodyRes := c.bodyRes.tail,
            log := c.log ++ [CodecCall.readRequestBody target] })

def CodecState.writeResponse (c : CodecState) (resp : response) (body : Msg)
    (more : Bool) : Option GoError × CodecState :=
  (c.writeRes.headD none,
   { c with writeRes := c.writeRes.tail,
            log := c.log ++ [CodecCall.writeResponse resp body more] })

def CodecState.close (c : CodecState) : Option GoError × CodecState :=
  (c.closeRes.headD none,
   { c with closeRes := c.closeRes.tail,
            log := c.log ++ [CodecCall.close] })

/-- `seq` is a Go `uint64`; increments wrap modulo this constant. -/
def uint64Mod : Nat := 2 ^ 64

/-- The `rpcStream` struct of rpc_stream.go.  The embedded `sync.RWMutex` is
not modelled (the embedding is sequential).  The stream holds a reference to
its codec (`codecId`); the codec's mutable state is threaded separately as a
`CodecState`. -/
structure rpcStream where
  seq : Nat
  closed : Bool
  err : Option GoError
  request : Request
  codecId : Nat
  context : GoContext
deriving DecidableEq

/-- `func (r *rpcStream) Context() context.Context` — returns the fixed
context; the receiver is not written. -/
def rpcStream.Context (r : rpcStream) : GoContext :=
  r.context

/-- `func (r *rpcStream) Request() Request` — returns the fixed originating
request; the receiver is not written. -/
def rpcStream.Request (r : rpcStream) : Request :=
  r.request

/-- `func (r *rpcStream) Send(msg interface{}) error`: under the exclusive
lock, read `seq`, increment the counter, build the `response` envelope from
`r.request.Method()` and the read sequence number, and write it with the
`more` flag false.  A write error is logged (side effect not modelled) and
returned; nothing else is touched. -/
def rpcStream.Send (r : rpcStream) (c : CodecState) (msg : Msg) :
    Option GoError × rpcStream × CodecState :=
  let seq := r.seq
  let r' : rpcStream := { r with seq := (r.seq + 1) % uint64Mod }
  let resp : response := { ServiceMethod := r'.request.Method, Seq := seq }
  let (err, c') := c.writeResponse resp msg false
  (err, r', c')

/-- `func (r *rpcStream) Recv(msg interface{}) error`: under the exclusive
lock, read the next request header (into a local `request{}` that is never
read afterwards, hence not modelled); on header failure, discard the body
(`ReadRequestBody(nil)`, result ignored) and return the header error; on
header success read the body into `msg`, returning its error, or nil when
both reads succeed.  The stream's own fields are never written. -/
def rpcStream.Recv (r : rpcStream) (c : CodecState) (msg : Msg) :
    Option GoError × rpcStream × CodecState :=
  match c.readRequestHeader false with
  | (some e, c') =>
    let (_, c'') := c'.readRequestBody none
    (some e, r, c'')
  | (none, c') =>
    match c'.readRequestBody (some msg) with
    | (some e, c'') => (some e, r, c'')
    | (none, c'') => (none, r, c'')

/-- `func (r *rpcStream) Error() error`: under the read lock, return the
`err` field.  No field is written. -/
def rpcStream.Error (r : rpcStream) : Option GoError :=
  r.err

/-- `func (r *rpcStream) Close() error`: under the exclusive lock, set
`closed` to true and close the codec, returning the codec's close error. -/
def rpcStream.Close (r : rpcStream) (c : CodecState) :
    Option GoError × rpcStream × CodecState :=
  let r' : rpcStream := { r with closed := true }
  let (err, c') := c.close
  (err, r', c')

/-- Run a sequence of `Send` calls, one per listed message, collecting each
call's returned error in order. -/
def runSends (r : rpcStream) (c : CodecState) :
    List Msg → List (Option GoError) × rpcStream × CodecState
  | [] => ([], r, c)
  | m :: ms =>
    let (e, r', c') := r.Send c m
    let (es, r'', c'') := runSends r' c' ms
    (e :: es, r'', c'')

/-- The sequence numbers carried by the `writeResponse` envelopes of a codec
log, in the order they were written. -/
def writtenSeqs (log : List CodecCall) : List Nat :=
  log.filterMap fun call =>
    match call with
    | CodecCall.writeResponse resp _ _ => some resp.Seq
    | _ => none

/-- Given the per-call results of a run of Sends and the sequence numbers
those calls wrote (positionally aligned), the sequence numbers written by the
successful calls. -/
def successfulSendSeqs : List (Option GoError) → List Nat → List Nat
  | [], _ => []
  | _ :: _, [] => []
  | none :: es, q :: qs => q :: successfulSendSeqs es qs
  | some _ :: es, _ :: qs => successfulSendSeqs es qs

/-- A fresh stream over a request, as built by the (external) dispatch layer:
sequence 0, not closed, no recorded error. -/
def freshStream (req : Request) : rpcStream :=
  { seq := 0, closed := false, err := none, request := req,
    codecId := 0, context := 0 }

/-- A codec whose scripts are empty (every call succeeds) and whose log is
empty. -/
def freshCodec : CodecState :=
  { headerRes := [], bodyRes := [], writeRes := [], closeRes := [], log := [] }

/-- The request of the spec's scenarios: service "Greeter", method "Hello". -/
def sampleRequest : Request :=
  { Service := "Greeter", Method := "Hello",
    ContentType := "application/json", Stream := true }

/-!
Embedding of server.go: package-level default instance and convenience
functions.  The concrete server implementation (`newRpcServer`, in
rpc_server.go) and the `options`, `Handler` and `Subscriber` types are not
under src/; they are modelled from the spec, clearly marked below.  The
package functions themselves (`Config`, `Init`, `Handle`, ..., `Run`) are
translated from server.go.  A Go method call on a nil `DefaultServer`
interface would panic; those branches are marked unreachable and the
theorems carry the `DefaultServer = some _` hypothesis instead.
-/

/-- Modelled from the spec: the `options` configuration struct (its
definition is not under src/); §3 lists address, name, version and identity,
mutable only through `Init`, read through `Config()`. -/
structure options where
  address : String
  name : String
  version : String
  id : String
deriving DecidableEq

/-- The Go type `Option func(*options)` of server.go: a mutation of the
configuration (Lean's `Option` being taken, the name carries a prime). -/
def Option' : Type := options → options

/-- `DefaultAddress` of server.go. -/
def DefaultAddress : String := ":0"

/-- `DefaultName` of server.go. -/
def DefaultName : String := "go-server"

/-- `DefaultVersion` of server.go. -/
def DefaultVersion : String := "1.0.0"

/-- `DefaultId` of server.go is `uuid.NewUUID().String()`, a fresh uuid at
package initialization; modelled as a fixed abstract identifier. -/
def DefaultId : String := "uuid-0"

/-- Modelled from the spec: the configuration a server starts from before
any option is applied (address, name, version, identity defaults). -/
def defaultOptions : options :=
  { address := DefaultAddress, name := DefaultName,
    version := DefaultVersion, id := DefaultId }

/-- Modelled from the spec: a handler descriptor.  Structural validation
happens at the (out-of-scope) construction step; `Handle` merely surfaces
its result, so the descriptor carries it. -/
structure Handler where
  service : String
  validationErr : Option GoError
deriving DecidableEq

/-- Modelled from the spec: a subscriber descriptor (interest in a topic). -/
structure Subscriber where
  topic : String
deriving DecidableEq

/-- Modelled from the spec: the concrete rpc server behind the `Server`
interface (rpc_server.go is not under src/).  State per §3: configuration,
handler table, subscriber table, registration state and run state. -/
structure rpcServer where
  opts : options
  handlers : List Handler
  subscribers : List Subscriber
  registered : Bool
  running : Bool
deriving DecidableEq

/-- Modelled from the spec: the constructor `newRpcServer(opt ...Option)`,
applying the passed options, in order, to the default configuration. -/
def newRpcServer (opts : List Option') : rpcServer :=
  { opts := opts.foldl (fun o f => f o) defaultOptions,
    handlers := [], subscribers := [], registered := false, running := false }

/-- Modelled from the spec: `Config()` reads the configuration. -/
def rpcServer.Config (s : rpcServer) : options :=
  s.opts

/-- Modelled from the spec: `Init(opt ...Option)` applies the passed options,
in order, to the existing configuration (reconfiguration, no other change). -/
def rpcServer.Init (s : rpcServer) (opts : List Option') : rpcServer :=
  { s with opts := opts.foldl (fun o f => f o) s.opts }

/-- Modelled from the spec: `Handle` surfaces the handler's structural
validation error; on success the handler is added to the table. -/
def rpcServer.Handle (s : rpcServer) (h : Handler) :
    Option GoError × rpcServer :=
  match h.validationErr with
  | some e => (some e, s)
  | none => (none, { s with handlers := s.handlers ++ [h] })

/-- Modelled from the spec: `Subscribe` registers interest with the broker
collaborator; the broker's answer is injected as `brokerRes` and propagated. -/
def rpcServer.Subscribe (s : rpcServer) (sub : Subscriber)
    (brokerRes : Option GoError) : Option GoError × rpcServer :=
  match brokerRes with
  | some e => (some e, s)
  | none => (none, { s with subscribers := s.subscribers ++ [sub] })

/-- Modelled from the spec: `Register` publishes the descriptor to the
discovery collaborator (answer injected as `registryRes`); on success the
server is marked registered. -/
def rpcServer.Register (s : rpcServer) (registryRes : Option GoError) :
    Option GoError × rpcServer :=
  match registryRes with
  | some e => (some e, s)
  | none => (none, { s with registered := true })

/-- Modelled from the spec: `Deregister` removes the descriptor from the
discovery collaborator (answer injected); on success the server is marked
unregistered. -/
def rpcServer.Deregister (s : rpcServer) (registryRes : Option GoError) :
    Option GoError × rpcServer :=
  match registryRes with
  | some e => (some e, s)
  | none => (none, { s with registered := false })

/-- Modelled from the spec: `Start` binds the listening resource (bind
outcome injected as `bindRes`); on success the server is running. -/
def rpcServer.Start (s : rpcServer) (bindRes : Option GoError) :
    Option GoError × rpcServer :=
  match bindRes with
  | some e => (some e, s)
  | none => (none, { s with running := true })

/-- Modelled from the spec: `Stop` releases the listening resource (drain
outcome injected as `stopRes`); the server stops running. -/
def rpcServer.Stop (s : rpcServer) (stopRes : Option GoError) :
    Option GoError × rpcServer :=
  match stopRes with
  | some e => (some e, s)
  | none => (none, { s with running := false })

/-- Modelled from the spec: `String()` is the stable diagnostic name. -/
def rpcServer.String (s : rpcServer) : String :=
  s.opts.name

/-- The package-level mutable state of server.go: the `DefaultServer`
interface variable (`none` models a nil interface value). -/
structure PkgState where
  DefaultServer : Option rpcServer
deriving DecidableEq

/-- Package initialization of server.go:
`var DefaultServer Server = newRpcServer()` — the default instance is
constructed here, when the package is loaded, with no options. -/
def initialPkgState : PkgState :=
  { DefaultServer := some (newRpcServer []) }

/-- `func Config() options { return DefaultServer.Config() }`. -/
def pkgConfig (s : PkgState) : options :=
  match s.DefaultServer with
  | some srv => srv.Config
  | none => defaultOptions

/-- `func Init(opt ...Option)`: if `DefaultServer` is nil, construct it with
the passed options; then call `DefaultServer.Init(opt...)`. -/
def pkgInit (s : PkgState) (opts : List Option') : PkgState :=
  let s1 : PkgState :=
    match s.DefaultServer with
    | none => { DefaultServer := some (newRpcServer opts) }
    | some _ => s
  match s1.DefaultServer with
  | some srv => { DefaultServer := some (srv.Init opts) }
  | none => s1

/-- `func Handle(h Handler) error { return DefaultServer.Handle(h) }`. -/
def pkgHandle (s : PkgState) (h : Handler) : Option GoError × PkgState :=
  match s.DefaultServer with
  | some srv =>
    let (res, srv') := srv.Handle h
    (res, { DefaultServer := some srv' })
  | none => (none, s)

/-- `func Subscribe(s Subscriber) error { return DefaultServer.Subscribe(s) }`. -/
def pkgSubscribe (s : PkgState) (sub : Subscriber)
    (brokerRes : Option GoError) : Option GoError × PkgState :=
  match s.DefaultServer with
  | some srv =>
    let (res, srv') := srv.Subscribe sub brokerRes
    (res, { DefaultServer := some srv' })
  | none => (none, s)

/-- `func Register() error { return DefaultServer.Register() }`. -/
def pkgRegister (s : PkgState) (registryRes : Option GoError) :
    Option GoError × PkgState :=
  match s.DefaultServer with
  | some srv =>
    let (res, srv') := srv.Register registryRes
    (res, { DefaultServer := some srv' })
  | none => (none, s)

/-- `func Deregister() error { return DefaultServer.Deregister() }`. -/
def pkgDeregister (s : PkgState) (registryRes : Option GoError) :
    Option GoError × PkgState :=
  match s.DefaultServer with
  | some srv =>
    let (res, srv') := srv.Deregister registryRes
    (res, { DefaultServer := some srv' })
  | none => (none, s)

/-- `func Start() error`: reads `DefaultServer.Config()` for the
"Starting server" log line, then returns `DefaultServer.Start()`. -/
def pkgStart (s : PkgState) (bindRes : Option GoError) :
    Option GoError × PkgState :=
  match s.DefaultServer with
  | some srv =>
    let _config := srv.Config
    let (res, srv') := srv.Start bindRes
    (res, { DefaultServer := some srv' })
  | none => (none, s)

/-- `func Stop() error`: logs "Stopping server", then returns
`DefaultServer.Stop()`. -/
def pkgStop (s : PkgState) (stopRes : Option GoError) :
    Option GoError × PkgState :=
  match s.DefaultServer with
  | some srv =>
    let (res, srv') := srv.Stop stopRes
    (res, { DefaultServer := some srv' })
  | none => (none, s)

/-- `func String() string { return DefaultServer.String() }`. -/
def pkgString (s : PkgState) : String :=
  match s.DefaultServer with
  | some srv => srv.String
  | none => ""

/-- Observable steps of `Run`, in the order Run performs them.  The blocking
receive on the signal channel is the `waitSignal` event. -/
inductive RunEvent where
  | start
  | register
  | waitSignal
  | deregister
  | stop
deriving DecidableEq

/-- Outcomes of the external collaborators consulted during one `Run`:
listener bind, discovery register/deregister, listener drain. -/
structure RunEnv where
  bindRes : Option GoError
  registryRes : Option GoError
  deregistryRes : Option GoError
  stopRes : Option GoError

/-- `func Run() error` of server.go: `Start()`; on error return it.
`DefaultServer.Register()`; on error return it.  Block on the signal
channel.  `DefaultServer.Deregister()`; on error return it.  Return
`Stop()`.  The third component is the trace of steps performed. -/
def Run (s : PkgState) (env : RunEnv) :
    Option GoError × PkgState × List RunEvent :=
  let (e1, s1) := pkgStart s env.bindRes
  match e1 with
  | some err => (some err, s1, [RunEvent.start])
  | none =>
    let (e2, s2) := pkgRegister s1 env.registryRes
    match e2 with
    | some err => (some err, s2, [RunEvent.start, RunEvent.register])
    | none =>
      let (e3, s3) := pkgDeregister s2 env.deregistryRes
      match e3 with
      | some err =>
        (some err, s3,
         [RunEvent.start, RunEvent.register, RunEvent.waitSignal,
          RunEvent.deregister])
      | none =>
        let (e4, s4) := pkgStop s3 env.stopRes
        (e4, s4,
         [RunEvent.start, RunEvent.register, RunEvent.waitSignal,
          RunEvent.deregister, RunEvent.stop])

/-!
Fixtures for concrete counterexamples and witnesses.
-/

/-- Codec whose first write fails and whose second write succeeds. -/
def c1Codec : CodecState :=
  { freshCodec with writeRes := [some "broken pipe", none] }

/-- Codec whose first header read fails with "EOF" (the spec's Recv scenario). -/
def c2Codec : CodecState :=
  { freshCodec with headerRes := [some "EOF"] }

/-- Codec whose first header read fails with "EOF", for the lastError claim. -/
def c4Codec : CodecState :=
  { freshCodec with headerRes := [some "EOF"] }

/-- A stream is unchanged by `Recv`: all branches of the source return with no
assignment to the receiver. -/
theorem recv_stream_eq (r : rpcStream) (c : CodecState) (m : Msg) :
    (r.Recv c m).2.1 = r := by
  unfold rpcStream.Recv
  rcases hh : CodecState.readRequestHeader c false with ⟨e, c1⟩
  cases e with
  | none =>
    rcases hb : CodecState.readRequestBody c1 (some m) with ⟨eb, c2⟩
    cases eb <;> simp [hh, hb]
  | some e => simp [hh]

/-- C2 (confirmed): when the header read fails, Recv calls the body-discard
path (`ReadRequestBody` with a nil target) exactly once — the codec log grows
by exactly the header call followed by one nil-target body call — and returns
the header error; when the header read succeeds and the body read fails, the
body error is returned and the log grows by the header call and one
real-target body call (no discard); when both succeed, Recv returns nil. -/
theorem recv_discard_spec (r : rpcStream) (c : CodecState) (m : Msg) :
    (∀ e, c.headerRes.headD none = some e →
      (r.Recv c m).1 = some e ∧
      (r.Recv c m).2.2.log
        = c.log ++ [CodecCall.readRequestHeader false,
                    CodecCall.readRequestBody none])
    ∧ (c.headerRes.headD none = none → ∀ e, c.bodyRes.headD none = some e →
      (r.Recv c m).1 = some e ∧
      (r.Recv c m).2.2.log
        = c.log ++ [CodecCall.readRequestHeader false,
                    CodecCall.readRequestBody (some m)])
    ∧ (c.headerRes.headD none = none → c.bodyRes.headD none = none →
      (r.Recv c m).1 = none) := by
  refine ⟨?_, ?_, ?_⟩
  · intro e he
    rw [List.headD_eq_head?] at he
    simp [rpcStream.Recv, CodecState.readRequestHeader,
          CodecState.readRequestBody, he]
  · intro hh e hb
    rw [List.headD_eq_head?] at hh
    rw [List.headD_eq_head?] at hb
    simp [rpcStream.Recv, CodecState.readRequestHeader,
          CodecState.readRequestBody, hh, hb]
  · intro hh hb
    rw [List.headD_eq_head?] at hh
    rw [List.headD_eq_head?] at hb
    simp [rpcStream.Recv, CodecState.readRequestHeader,
          CodecState.readRequestBody, hh, hb]

/-- Witness for C2 at the spec's scenario: over a codec whose header read
fails with "EOF", Recv returns "EOF" and the log shows exactly one nil-target
body call. -/
theorem recv_discard_spec_witness :
    ((freshStream sampleRequest).Recv c2Codec 0).1 = some "EOF"
    ∧ ((freshStream sampleRequest).Recv c2Codec 0).2.2.log
      = c2Codec.log ++ [CodecCall.readRequestHeader false,
                        CodecCall.readRequestBody none] :=
  (recv_discard_spec (freshStream sampleRequest) c2Codec 0).1 "EOF" rfl

/-- C5 (confirmed): Send never writes the stream's `err` field, so the value
returned by `Error()` is the same immediately before and after any Send call,
successful or not. -/
theorem send_not_stored_in_lastError (r : rpcStream) (c : CodecState)
    (m : Msg) :
    (r.Send c m).2.1.err = r.err
    ∧ ((r.Send c m).2.1).Error = r.Error := by
  constructor <;>
    simp [rpcStream.Send, rpcStream.Error, CodecState.writeResponse]

/-- C6 (confirmed): each call to Close sets the `closed` flag to true
(unconditionally — also when the codec's close errors), calls the codec's
`Close` and returns its result; a second Close leaves the flag true and
invokes the codec's `Close` a second time (two `close` entries in the log). -/
theorem close_spec (r : rpcStream) (c : CodecState) :
    ((r.Close c).2.1.closed = true)
    ∧ ((r.Close c).1 = c.closeRes.headD none)
    ∧ ((r.Close c).2.2.log = c.log ++ [CodecCall.close])
    ∧ (((r.Close c).2.1.Close (r.Close c).2.2).2.1.closed = true)
    ∧ (((r.Close c).2.1.Close (r.Close c).2.2).2.2.log
        = c.log ++ [CodecCall.close, CodecCall.close]) := by
  refine ⟨rfl, rfl, ?_, rfl, ?_⟩ <;>
    simp [rpcStream.Close, CodecState.close]

/-- C10 (confirmed): Recv returns the stream with every field unchanged
(`seq`, `closed`, `err`, `request`, `codecId`, `context`); Send changes only
`seq` (to its wrapped successor) and Close changes only `closed` (to true);
Context, Request and Error are read-only observations of fixed fields (their
receiver is not even threaded, matching the source, which never assigns
through them). -/
theorem stream_frame (r : rpcStream) (c : CodecState) (m m' : Msg) :
    (r.Recv c m').2.1 = r
    ∧ (r.Send c m).2.1 = { r with seq := (r.seq + 1) % uint64Mod }
    ∧ (r.Close c).2.1 = { r with closed := true }
    ∧ rpcStream.Context r = r.context
    ∧ rpcStream.Request r = r.request
    ∧ rpcStream.Error r = r.err :=
  ⟨recv_stream_eq r c m', rfl, rfl, rfl, rfl, rfl⟩

/-- C4 (code_bug evidence): over a codec whose header read fails with "EOF",
Recv returns the error "EOF", yet `Error()` on the resulting stream still
returns nil — no code path in rpc_stream.go ever writes the `err` field,
although the `Streamer` interface documentation in server.go promises "The
last error will be left in Error()". -/
theorem recv_error_not_recorded :
    ((freshStream sampleRequest).Recv c4Codec 0).1 = some "EOF"
    ∧ (((freshStream sampleRequest).Recv c4Codec 0).2.1).Error = none := by
  decide

/-- C3 counterexample: over the scenario's request {service "Greeter",
method "Hello"}, the single envelope written by the first Send has
`ServiceMethod = "Hello"` and `Seq = 0`; the service name "Greeter" occurs
nowhere in it (it is not even a substring of the `ServiceMethod` field, the
envelope's only string), so the envelope does not carry the service. -/
theorem first_send_envelope_counterexample :
    ((freshStream sampleRequest).Send freshCodec 42).2.2.log
      = [CodecCall.writeResponse { ServiceMethod := "Hello", Seq := 0 } 42 false]
    ∧ sampleRequest.Service = "Greeter"
    ∧ ¬ ("Greeter".data <:+: "Hello".data)
    ∧ ((freshStream sampleRequest).Send freshCodec 42).2.1.seq = 1 := by
  refine ⟨rfl, rfl, by decide, rfl⟩

/-- C3 (amended): on a fresh stream (sequence 0), Send writes exactly one
envelope, carrying `ServiceMethod` equal to the request's method (only the
method — the struct literal in the source reads `r.request.Method()` and the
service name is not put into the envelope) and sequence number 0, with the
`more` flag false; the codec write's result is returned and the sequence
counter becomes 1. -/
theorem first_send_envelope (r : rpcStream) (c : CodecState) (m : Msg)
    (h0 : r.seq = 0) :
    (r.Send c m).2.2.log
      = c.log ++ [CodecCall.writeResponse
          { ServiceMethod := r.request.Method, Seq := 0 } m false]
    ∧ (r.Send c m).2.1.seq = 1
    ∧ (r.Send c m).1 = c.writeRes.headD none := by
  refine ⟨?_, ?_, ?_⟩ <;>
    simp [rpcStream.Send, CodecState.writeResponse, h0, uint64Mod,
          List.headD_eq_head?]

/-- Witness for C3 at the spec's scenario input. -/
theorem first_send_envelope_witness :
    ((freshStream sampleRequest).Send freshCodec 42).2.2.log
      = freshCodec.log ++ [CodecCall.writeResponse
          { ServiceMethod := sampleRequest.Method, Seq := 0 } 42 false]
    ∧ ((freshStream sampleRequest).Send freshCodec 42).2.1.seq = 1
    ∧ ((freshStream sampleRequest).Send freshCodec 42).1
      = freshCodec.writeRes.headD none :=
  first_send_envelope (freshStream sampleRequest) freshCodec 42 rfl

/-- Unfolding lemma: `writtenSeqs` distributes over log concatenation. -/
theorem writtenSeqs_append (l1 l2 : List CodecCall) :
    writtenSeqs (l1 ++ l2) = writtenSeqs l1 ++ writtenSeqs l2 := by
  simp [writtenSeqs, List.filterMap_append]

/-- Invariant of a run of Sends: starting from any counter value that cannot
wrap during the run, each Send appends one envelope carrying the current
counter value, so the envelopes carry `r.seq, r.seq+1, ...`, the final
counter is `r.seq + N`, and there is one result per Send. -/
theorem runSends_general (msgs : List Msg) : ∀ (r : rpcStream) (c : CodecState),
    r.seq + msgs.length < uint64Mod →
    writtenSeqs (runSends r c msgs).2.2.log
      = writtenSeqs c.log ++ List.range' r.seq msgs.length
    ∧ (runSends r c msgs).2.1.seq = r.seq + msgs.length
    ∧ (runSends r c msgs).1.length = msgs.length := by
  induction msgs with
  | nil =>
    intro r c _
    simp [runSends]
  | cons m ms ih =>
    intro r c h
    have hlt : r.seq + 1 < uint64Mod := by
      simp only [List.length_cons] at h
      omega
    have hmod : (r.seq + 1) % uint64Mod = r.seq + 1 := Nat.mod_eq_of_lt hlt
    have hrec := ih { r with seq := (r.seq + 1) % uint64Mod }
      { c with writeRes := c.writeRes.tail,
               log := c.log ++ [CodecCall.writeResponse
                 { ServiceMethod := r.request.Method, Seq := r.seq } m false] }
      (by
        simp only [hmod]
        simp only [List.length_cons] at h
        omega)
    simp only [hmod] at hrec
    obtain ⟨hw, hs, hl⟩ := hrec
    refine ⟨?_, ?_, ?_⟩
    · simp only [runSends, rpcStream.Send, CodecState.writeResponse, hmod]
      rw [hw, writtenSeqs_append]
      simp [writtenSeqs, List.range'_succ]
    · simp only [runSends, rpcStream.Send, CodecState.writeResponse, hmod]
      rw [hs]
      simp only [List.length_cons]
      omega
    · simp only [runSends, rpcStream.Send, CodecState.writeResponse, hmod]
      simp [hl]

/-- When every result of a run is nil and results align one-to-one with the
written sequence numbers, the successful calls' numbers are all of them. -/
theorem successfulSendSeqs_all_none :
    ∀ (es : List (Option GoError)) (qs : List Nat),
      es.length = qs.length → (∀ e ∈ es, e = none) →
      successfulSendSeqs es qs = qs := by
  intro es
  induction es with
  | nil =>
    intro qs h _
    cases qs with
    | nil => rfl
    | cons q qs => simp at h
  | cons e es ih =>
    intro qs h hall
    cases qs with
    | nil => simp at h
    | cons q qs =>
      have he : e = none := hall e (List.mem_cons_self e es)
      subst he
      have := ih qs (by simpa using h)
        (fun x hx => hall x (List.mem_cons_of_mem _ hx))
      simp [successfulSendSeqs, this]

/-- C1 counterexample: over a codec whose first write fails ("broken pipe")
and whose second write succeeds, two Sends on a fresh stream yield exactly
one successful Send, and the sequence number assigned to that successful Send
is 1, not 0 — so the numbers assigned to the N = 1 successful Sends are [1],
not 0..N-1 = [0].  Moreover after the single failed Send alone the counter is
already 1 although no successful Send has occurred, refuting "incremented
exactly once per successful Send". -/
theorem send_seq_counterexample :
    (runSends (freshStream sampleRequest) c1Codec [7, 8]).1
      = [some "broken pipe", none]
    ∧ successfulSendSeqs (runSends (freshStream sampleRequest) c1Codec [7, 8]).1
        (writtenSeqs (runSends (freshStream sampleRequest) c1Codec [7, 8]).2.2.log)
      = [1]
    ∧ [1] ≠ List.range 1
    ∧ (runSends (freshStream sampleRequest) c1Codec [7]).2.1.seq = 1
    ∧ (runSends (freshStream sampleRequest) c1Codec [7]).1
      = [some "broken pipe"] := by
  refine ⟨rfl, rfl, by decide, rfl, rfl⟩

/-- C1 (amended): on a fresh stream (counter 0, empty codec log), a run of N
Send calls — successful or not, the counter is incremented exactly once per
Send call, not only per successful one — writes envelopes carrying exactly
the sequence numbers 0..N-1 in call order, and leaves the counter at N (never
reset); in particular, when every Send of the run succeeds, the numbers
assigned to the N successful Sends are exactly 0..N-1 in call order. -/
theorem send_sequence_numbers (msgs : List Msg) (r : rpcStream)
    (c : CodecState) (h0 : r.seq = 0) (hlog : c.log = [])
    (hlen : msgs.length < uint64Mod) :
    writtenSeqs (runSends r c msgs).2.2.log = List.range msgs.length
    ∧ (runSends r c msgs).2.1.seq = msgs.length
    ∧ ((∀ e ∈ (runSends r c msgs).1, e = none) →
        successfulSendSeqs (runSends r c msgs).1
          (writtenSeqs (runSends r c msgs).2.2.log)
        = List.range msgs.length) := by
  obtain ⟨hw, hs, hl⟩ := runSends_general msgs r c (by omega)
  rw [h0, hlog] at hw
  rw [h0] at hs
  simp only [writtenSeqs, List.filterMap_nil, List.nil_append] at hw
  have hw' : writtenSeqs (runSends r c msgs).2.2.log = List.range msgs.length := by
    rw [← List.range_eq_range'] at hw
    exact hw
  refine ⟨hw', by simpa using hs, ?_⟩
  intro hall
  rw [hw']
  exact successfulSendSeqs_all_none _ _
    (by rw [hl, List.length_range]) hall

/-- Witness for C1: three successful Sends on a fresh stream are assigned
0, 1, 2 and leave the counter at 3. -/
theorem send_sequence_numbers_witness :
    writtenSeqs (runSends (freshStream sampleRequest) freshCodec [5, 6, 7]).2.2.log
      = List.range ([5, 6, 7] : List Msg).length
    ∧ (runSends (freshStream sampleRequest) freshCodec [5, 6, 7]).2.1.seq
      = ([5, 6, 7] : List Msg).length
    ∧ ((∀ e ∈ (runSends (freshStream sampleRequest) freshCodec [5, 6, 7]).1,
          e = none) →
        successfulSendSeqs
          (runSends (freshStream sampleRequest) freshCodec [5, 6, 7]).1
          (writtenSeqs
            (runSends (freshStream sampleRequest) freshCodec [5, 6, 7]).2.2.log)
        = List.range ([5, 6, 7] : List Msg).length) :=
  send_sequence_numbers [5, 6, 7] (freshStream sampleRequest) freshCodec
    rfl rfl (by decide)

/-- C7 counterexample: the default instance is not constructed lazily on
first use — at package initialization, before any operation runs, the
`DefaultServer` variable already holds a constructed server
(`newRpcServer()` with no options). -/
theorem default_server_constructed_eagerly :
    initialPkgState.DefaultServer = some (newRpcServer [])
    ∧ initialPkgState.DefaultServer ≠ none := by
  refine ⟨rfl, by simp [initialPkgState]⟩

/-- C7 (amended): the default instance is constructed eagerly at package
initialization (`var DefaultServer Server = newRpcServer()`), not lazily on
first use; the package-level `Init` constructs a new underlying server only
when the variable is nil (which, after package initialization, it never is),
and when an instance already exists `Init` only applies the passed options to
that existing instance. -/
theorem pkg_init_semantics (s : PkgState) (opts : List Option') :
    (∀ srv, s.DefaultServer = some srv →
      pkgInit s opts = { DefaultServer := some (srv.Init opts) })
    ∧ (s.DefaultServer = none →
      pkgInit s opts
        = { DefaultServer := some ((newRpcServer opts).Init opts) }) := by
  constructor
  · intro srv h
    simp [pkgInit, h]
  · intro h
    simp [pkgInit, h]

/-- Witness for C7: `Init` on the package-initial state reconfigures the
existing instance rather than constructing a new one. -/
theorem pkg_init_semantics_witness :
    pkgInit initialPkgState []
      = { DefaultServer := some ((newRpcServer []).Init []) } :=
  (pkg_init_semantics initialPkgState []).1 (newRpcServer []) rfl

/-- C8 (confirmed): while the default instance exists (it always does after
package initialization), every package-level convenience function returns
exactly the result of the corresponding method on the default instance, for
every argument, every instance state and every collaborator outcome. -/
theorem pkg_delegates (s : PkgState) (srv : rpcServer)
    (hs : s.DefaultServer = some srv) (h : Handler) (sub : Subscriber)
    (brokerRes registryRes deregRes bindRes stopRes : Option GoError) :
    pkgConfig s = srv.Config
    ∧ (pkgHandle s h).1 = (srv.Handle h).1
    ∧ (pkgSubscribe s sub brokerRes).1 = (srv.Subscribe sub brokerRes).1
    ∧ (pkgRegister s registryRes).1 = (srv.Register registryRes).1
    ∧ (pkgDeregister s deregRes).1 = (srv.Deregister deregRes).1
    ∧ (pkgStart s bindRes).1 = (srv.Start bindRes).1
    ∧ (pkgStop s stopRes).1 = (srv.Stop stopRes).1
    ∧ pkgString s = srv.String := by
  refine ⟨?_, ?_, ?_, ?_, ?_, ?_, ?_, ?_⟩ <;>
    simp [pkgConfig, pkgHandle, pkgSubscribe, pkgRegister, pkgDeregister,
          pkgStart, pkgStop, pkgString, hs]

/-- Witness for C8 at the package-initial state with concrete arguments. -/
theorem pkg_delegates_witness :
    pkgConfig initialPkgState = (newRpcServer []).Config
    ∧ (pkgHandle initialPkgState ⟨"Greeter", none⟩).1
      = ((newRpcServer []).Handle ⟨"Greeter", none⟩).1
    ∧ (pkgSubscribe initialPkgState ⟨"topic"⟩ none).1
      = ((newRpcServer []).Subscribe ⟨"topic"⟩ none).1
    ∧ (pkgRegister initialPkgState none).1
      = ((newRpcServer []).Register none).1
    ∧ (pkgDeregister initialPkgState none).1
      = ((newRpcServer []).Deregister none).1
    ∧ (pkgStart initialPkgState none).1 = ((newRpcServer []).Start none).1
    ∧ (pkgStop initialPkgState none).1 = ((newRpcServer []).Stop none).1
    ∧ pkgString initialPkgState = (newRpcServer []).String :=
  pkg_delegates initialPkgState (newRpcServer []) rfl ⟨"Greeter", none⟩
    ⟨"topic"⟩ none none none none none

/-- C9 (confirmed): with the default instance in place, Run performs its
steps in the order start, register, wait-for-signal, deregister, stop; the
first step is always the start; when Start fails its error is returned and no
register step happens; when Start succeeds and Register fails, that error is
returned and no signal wait happens; when start, register and deregister all
succeed, the full ordered trace runs and Stop's result is returned; and a
register step only ever happens after a successful start. -/
theorem run_order (s : PkgState) (env : RunEnv) (srv : rpcServer)
    (hs : s.DefaultServer = some srv) :
    (Run s env).2.2.head? = some RunEvent.start
    ∧ (∀ e, env.bindRes = some e →
        (Run s env).1 = some e ∧ (Run s env).2.2 = [RunEvent.start])
    ∧ (env.bindRes = none → ∀ e, env.registryRes = some e →
        (Run s env).1 = some e
        ∧ (Run s env).2.2 = [RunEvent.start, RunEvent.register])
    ∧ (env.bindRes = none → env.registryRes = none →
        env.deregistryRes = none →
        (Run s env).1 = env.stopRes
        ∧ (Run s env).2.2
          = [RunEvent.start, RunEvent.register, RunEvent.waitSignal,
             RunEvent.deregister, RunEvent.stop])
    ∧ (RunEvent.register ∈ (Run s env).2.2 → env.bindRes = none) := by
  rcases env with ⟨bindRes, registryRes, deregistryRes, stopRes⟩
  cases bindRes <;> cases registryRes <;> cases deregistryRes <;>
    cases stopRes <;>
    simp [Run, pkgStart, pkgRegister, pkgDeregister, pkgStop,
          rpcServer.Start, rpcServer.Register, rpcServer.Deregister,
          rpcServer.Stop, rpcServer.Config, hs]

/-- Witness for C9: full success path on the package-initial state performs
all five steps in order and returns nil. -/
theorem run_order_witness :
    (Run initialPkgState ⟨none, none, none, none⟩).1 = (none : Option GoError)
    ∧ (Run initialPkgState ⟨none, none, none, none⟩).2.2
      = [RunEvent.start, RunEvent.register, RunEvent.waitSignal,
         RunEvent.deregister, RunEvent.stop] :=
  (run_order initialPkgState ⟨none, none, none, none⟩ (newRpcServer [])
    rfl).2.2.2.1 rfl rfl rfl
